import Mathlib

/-!
Verification development for the job submission / polling / asset-retrieval
client in `src/generate_from_scenes.py`.

The embedding models:
  * JSON values (`JValue`) with Python truthiness and `dict.get` semantics;
  * Python exceptions as an explicit error type (`PyErr`);
  * HTTP traffic through explicit request/response records, with the network
    supplied as an oracle function, and every function returning the list of
    HTTP requests it issued;
  * wall-clock time in `poll_job` as a stream `times : Nat -> Int` giving the
    value of `time.time()` observed at the i-th timeout check (timestamps are
    modelled at integral granularity; no claim depends on fractional time);
    `time.sleep(poll_interval)` justifies the assumption
    `times (i+1) >= times i + poll_interval` used in termination statements;
  * the local filesystem as an explicit state (`FsState`).

Loops are written with an explicit fuel parameter returning `Option`; `none`
means the modelled execution was not finished within the given fuel.
-/

/-- A JSON value as produced by `json.load` / `resp.json()` in the script.
Numbers are modelled as integers (no claim depends on fractional values). -/
inductive JValue where
  | null : JValue
  | bool (b : Bool) : JValue
  | num (q : ℤ) : JValue
  | str (s : String) : JValue
  | arr (items : List JValue) : JValue
  | obj (fields : List (String × JValue)) : JValue

/-- Python truthiness of a JSON value (`bool(v)`). -/
def JValue.truthy : JValue → Bool
  | .null => false
  | .bool b => b
  | .num q => if q = 0 then false else true
  | .str s => !s.isEmpty
  | .arr items => !items.isEmpty
  | .obj fields => !fields.isEmpty

/-- Python `v == s` for a string literal `s` (false on non-strings). -/
def JValue.isStr : JValue → String → Bool
  | .str t, s => t == s
  | _, _ => false

/-- Python `isinstance(v, list)`. -/
def JValue.isArr : JValue → Bool
  | .arr _ => true
  | _ => false

/-- Python exceptions raised by the script, carried in `Except`. -/
inductive PyErr where
  | valueError (msg : String)
  | attributeError (msg : String)
  | keyError (key : String)
  | typeError (msg : String)
  | httpError (status : Nat)
  | runtimeError (msg : String)
  | timeoutError (msg : String)
  | systemExit (msg : String)

/-- Python `d.get(k)`: `None` (here `.null`) when the key is missing; an
`AttributeError` when the receiver is not a dict. -/
def pyGet : JValue → String → Except PyErr JValue
  | .obj fields, key => .ok ((fields.lookup key).getD .null)
  | _, _ => .error (.attributeError "object has no attribute get")

/-- Python `d.get(k, default)`. -/
def pyGetD : JValue → String → JValue → Except PyErr JValue
  | .obj fields, key, dflt => .ok ((fields.lookup key).getD dflt)
  | _, _, _ => .error (.attributeError "object has no attribute get")

/-- Python `d[k]` on a dict: `KeyError` when missing, `TypeError` otherwise. -/
def pyIndex : JValue → String → Except PyErr JValue
  | .obj fields, key =>
    match fields.lookup key with
    | some v => .ok v
    | none => .error (.keyError key)
  | _, _ => .error (.typeError "object is not subscriptable")

/-- Python `a or b` on JSON values. -/
def pyOr (a b : JValue) : JValue := if a.truthy then a else b

/-- Python iteration `for x in v`: lists yield elements, strings yield
one-character strings, dicts yield their keys; other values raise. -/
def pyIter : JValue → Except PyErr (List JValue)
  | .arr items => .ok items
  | .str s => .ok (s.toList.map (fun c => .str (String.mk [c])))
  | .obj fields => .ok (fields.map (fun kv => JValue.str kv.1))
  | _ => .error (.typeError "object is not iterable")

/-- JSON string escaping used by `json.dumps` (common characters). -/
def escapeChar (c : Char) : String :=
  if c = '"' then "\\\""
  else if c = '\\' then "\\\\"
  else if c = '\n' then "\\n"
  else if c = '\t' then "\\t"
  else if c = '\r' then "\\r"
  else String.mk [c]

def escapeString (s : String) : String := String.join (s.toList.map escapeChar)

/-- Rendering of a number as Python prints an int. -/
def numStr (q : ℤ) : String := toString q

mutual

/-- `json.dumps` with its default separators. -/
def dumps : JValue → String
  | .null => "null"
  | .bool true => "true"
  | .bool false => "false"
  | .num q => numStr q
  | .str s => "\"" ++ escapeString s ++ "\""
  | .arr items => "[" ++ dumpsList items ++ "]"
  | .obj fields => "\x7b" ++ dumpsFields fields ++ "\x7d"

def dumpsList : List JValue → String
  | [] => ""
  | [v] => dumps v
  | v :: rest => dumps v ++ ", " ++ dumpsList rest

def dumpsFields : List (String × JValue) → String
  | [] => ""
  | [(k, v)] => "\"" ++ escapeString k ++ "\": " ++ dumps v
  | (k, v) :: rest => "\"" ++ escapeString k ++ "\": " ++ dumps v ++ ", " ++ dumpsFields rest

end

/-- Python `str(v)` / f-string rendering of a JSON value (container rendering
approximated by JSON text; the script only formats scalar ids this way). -/
def pyStr : JValue → String
  | .null => "None"
  | .bool true => "True"
  | .bool false => "False"
  | .num q => numStr q
  | .str s => s
  | v => dumps v

/-- Python format `i:03d` for the scene index. -/
def pad3 (n : Nat) : String :=
  if n < 10 then "00" ++ toString n
  else if n < 100 then "0" ++ toString n
  else toString n

/-- UTF-8 encoding of one character (`str.encode()`). -/
def charUtf8 (c : Char) : List Nat :=
  let n := c.toNat
  if n < 128 then [n]
  else if n < 2048 then [192 + n / 64, 128 + n % 64]
  else if n < 65536 then [224 + n / 4096, 128 + (n / 64) % 64, 128 + n % 64]
  else [240 + n / 262144, 128 + (n / 4096) % 64, 128 + (n / 64) % 64, 128 + n % 64]

/-- UTF-8 bytes of a string. -/
def utf8Bytes (s : String) : List Nat := s.toList.flatMap charUtf8

def b64alphabet : List Char :=
  "ABCDEFGHIJKLMNOPQRSTUVWXYZabcdefghijklmnopqrstuvwxyz0123456789+/".toList

def b64digit (n : Nat) : Char := b64alphabet.getD n 'A'

/-- `base64.b64encode` on a byte list, producing the padded text. -/
def b64encode : List Nat → String
  | [] => ""
  | [a] => String.mk [b64digit (a / 4), b64digit (a % 4 * 16), '=', '=']
  | [a, b] =>
    String.mk [b64digit (a / 4), b64digit (a % 4 * 16 + b / 16), b64digit (b % 16 * 4), '=']
  | a :: b :: c :: rest =>
    String.mk [b64digit (a / 4), b64digit (a % 4 * 16 + b / 16),
      b64digit (b % 16 * 4 + c / 64), b64digit (c % 64)] ++ b64encode rest

/-- An HTTP request as issued by the `requests` calls in the script. -/
structure HttpRequest where
  method : String
  url : String
  headers : List (String × String)
  jsonBody : Option JValue

/-- An HTTP response: status code, parsed JSON body (for `.json()`), and the
raw byte body (for streaming downloads). -/
structure HttpResponse where
  status : Nat
  body : JValue
  rawBody : List Nat

/-- `Response.raise_for_status` raises exactly for 400 <= status < 600. -/
def isHttpError (code : Nat) : Bool := 400 ≤ code && code < 600

/-- The local filesystem: a set of existing directories and a map from file
paths (component lists) to byte contents; the head binding shadows later ones. -/
structure FsState where
  dirs : List (List String)
  files : List (List String × List Nat)

/-- `Path.mkdir(parents=True, exist_ok=True)`: create `p` and all ancestors. -/
def addDirTree (ds : List (List String)) (p : List String) : List (List String) :=
  (List.range p.length).map (fun k => p.take (k + 1)) ++ ds

/-- Contents of a file, if present. -/
def readFile (fs : FsState) (p : List String) : Option (List Nat) :=
  (fs.files.find? (fun kv => kv.1 == p)).map (fun kv => kv.2)

/-- `Response.iter_content(chunk_size=n)`: the body split into chunks of `n`. -/
def chunksOf (n : Nat) (l : List Nat) : List (List Nat) :=
  if h : n = 0 ∨ l = [] then []
  else l.take n :: chunksOf n (l.drop n)
termination_by l.length
decreasing_by
  push_neg at h
  simp only [List.length_drop]
  exact Nat.sub_lt (List.length_pos.mpr h.2) (Nat.pos_of_ne_zero h.1)

def SCENARIO_BASE : String := "https://api.cloud.scenario.com/v1"

def TXT2IMG_ENDPOINT : String := SCENARIO_BASE ++ "/generate/txt2img"

def ASSET_ENDPOINT : String := SCENARIO_BASE ++ "/assets"

/-- Line 28 of `load_scenes`: `data.get("scenes") or data.get("Scenes") or []`. -/
def selectedScenes (data : JValue) : Except PyErr JValue :=
  match pyGet data "scenes", pyGet data "Scenes" with
  | .ok s1, .ok s2 => .ok (pyOr s1 (pyOr s2 (.arr [])))
  | .error e, _ => .error e
  | _, .error e => .error e

/-- `load_scenes` (file reading and JSON parsing abstracted away: `data` is the
parsed document). -/
def load_scenes (data : JValue) : Except PyErr (List JValue) :=
  match selectedScenes data with
  | .ok (.arr items) => .ok items
  | .ok _ => .error (.valueError "JSON 'scenes' must be a list of strings.")
  | .error e => .error e

/-- Truthiness of an `Optional[str]` (`None` and `""` are falsy). -/
def optStrTruthy : Option String → Bool
  | none => false
  | some s => !s.isEmpty

/-- Python `a or b` on `Optional[str]` values. -/
def orOptStr (a b : Option String) : Option String := if optStrTruthy a then a else b

def authErrorMsg : String :=
  "Scenario API requires both API key and API secret for Basic authentication"

/-- The Basic auth header value built on lines 41-45. -/
def basicAuthValue (api_key api_secret : String) : String :=
  "Basic " ++ b64encode (utf8Bytes (api_key ++ ":" ++ api_secret))

/-- `make_auth_headers` (the Python function also returns a second component
`None`, dropped by every caller and omitted here). -/
def make_auth_headers (api_key : String) (api_secret : Option String) :
    Except PyErr (List (String × String)) :=
  if optStrTruthy api_secret = false then .error (.valueError authErrorMsg)
  else
    .ok [("Authorization", basicAuthValue api_key (api_secret.getD "")),
         ("Content-Type", "application/json"),
         ("accept", "application/json")]

/-- The payload built on lines 52-60 of `submit_txt2img`. -/
def submitPayload (prompt model_id : String) (width height : Int) (guidance : ℤ)
    (steps num_samples : Int) : JValue :=
  .obj
    [("prompt", .str prompt),
     ("numSamples", .num num_samples),
     ("guidance", .num guidance),
     ("numInferenceSteps", .num steps),
     ("width", .num width),
     ("height", .num height),
     ("modelId", .str model_id)]

/-- The POST request issued by `submit_txt2img`. -/
def submitRequest (prompt model_id : String) (headers : List (String × String))
    (width height : Int) (guidance : ℤ) (steps num_samples : Int) : HttpRequest :=
  { method := "POST", url := TXT2IMG_ENDPOINT, headers := headers,
    jsonBody := some (submitPayload prompt model_id width height guidance steps num_samples) }

/-- `submit_txt2img`.  The network is an oracle mapping the issued request to
its response; the second component of the result is the list of HTTP requests
actually performed. -/
def submit_txt2img (prompt model_id api_key : String) (api_secret : Option String)
    (width height : Int) (guidance : ℤ) (steps num_samples : Int)
    (net : HttpRequest → HttpResponse) :
    Except PyErr JValue × List HttpRequest :=
  match make_auth_headers api_key api_secret with
  | .error e => (.error e, [])
  | .ok headers =>
    let req := submitRequest prompt model_id headers width height guidance steps num_samples
    let resp := net req
    if isHttpError resp.status then (.error (.httpError resp.status), [req])
    else (.ok resp.body, [req])

/-- Line 82 of `poll_job`: `data.get("job", {}).get("status")`. -/
def pollStatus (data : JValue) : Except PyErr JValue :=
  match pyGetD data "job" (.obj []) with
  | .error e => .error e
  | .ok j => pyGet j "status"

def jobUrl (job_id : String) : String := SCENARIO_BASE ++ "/jobs/" ++ job_id

/-- Message of the `RuntimeError` raised on line 89. -/
def jobFailMsg (job_id : String) (status : JValue) (data : JValue) : String :=
  "Job " ++ job_id ++ " ended with status: " ++ pyStr status ++ " - " ++ dumps data

/-- Message of the `TimeoutError` raised on line 91. -/
def timeoutMsg (job_id : String) (timeout : ℤ) : String :=
  "Polling job " ++ job_id ++ " timed out after " ++ numStr timeout ++ " seconds."

/-- The (constant) request issued by each iteration of the polling loop. -/
def pollRequest (job_id : String) (headers : List (String × String)) : HttpRequest :=
  { method := "GET", url := jobUrl job_id, headers := headers, jsonBody := none }

/-- One iteration of the `while True` body of `poll_job` (lines 75-92):
`some r` means the loop exits with result `r` at this iteration, `none` means
it sleeps and polls again.  `net req i` is the response to the i-th request;
`times i` is the value of `time.time()` at the i-th timeout check. -/
def pollDecision (job_id : String) (headers : List (String × String))
    (net : HttpRequest → Nat → HttpResponse) (times : Nat → ℤ)
    (start timeout : ℤ) (i : Nat) : Option (Except PyErr JValue) :=
  let r := net (pollRequest job_id headers) i
  if isHttpError r.status then some (.error (.httpError r.status))
  else
    match pollStatus r.body with
    | .error e => some (.error e)
    | .ok status =>
      if status.isStr "success" then
        match pyIndex r.body "job" with
        | .ok job => some (.ok job)
        | .error e => some (.error e)
      else if status.isStr "failure" || status.isStr "canceled" then
        some (.error (.runtimeError (jobFailMsg job_id status r.body)))
      else if timeout < times i - start then
        some (.error (.timeoutError (timeoutMsg job_id timeout)))
      else none

/-- The `while True` loop of `poll_job`, with fuel; also returns the list of
requests issued. -/
def pollLoop (job_id : String) (headers : List (String × String))
    (net : HttpRequest → Nat → HttpResponse) (times : Nat → ℤ)
    (start timeout : ℤ) : Nat → Nat → Option (Except PyErr JValue × List HttpRequest)
  | 0, _ => none
  | fuel + 1, i =>
    match pollDecision job_id headers net times start timeout i with
    | some res => some (res, [pollRequest job_id headers])
    | none =>
      match pollLoop job_id headers net times start timeout fuel (i + 1) with
      | none => none
      | some (res, reqs) => some (res, pollRequest job_id headers :: reqs)

/-- `poll_job`.  `poll_interval` only drives `time.sleep` and hence constrains
the `times` stream; it does not otherwise enter the computation. -/
def poll_job (job_id api_key : String) (api_secret : Option String)
    (poll_interval timeout : ℤ) (net : HttpRequest → Nat → HttpResponse)
    (times : Nat → ℤ) (start : ℤ) (fuel : Nat) :
    Option (Except PyErr JValue × List HttpRequest) :=
  match make_auth_headers api_key api_secret with
  | .error e => some (.error e, [])
  | .ok headers => pollLoop job_id headers net times start timeout fuel 0

/-- The GET request issued by `fetch_asset_url`. -/
def assetRequest (asset_id : String) (headers : List (String × String)) : HttpRequest :=
  { method := "GET", url := ASSET_ENDPOINT ++ "/" ++ asset_id,
    headers := headers, jsonBody := none }

/-- `fetch_asset_url`. -/
def fetch_asset_url (asset_id api_key : String) (api_secret : Option String)
    (net : HttpRequest → HttpResponse) : Except PyErr JValue × List HttpRequest :=
  match make_auth_headers api_key api_secret with
  | .error e => (.error e, [])
  | .ok headers =>
    let req := assetRequest asset_id headers
    let r := net req
    if isHttpError r.status then (.error (.httpError r.status), [req])
    else
      match pyIndex r.body "asset" with
      | .error e => (.error e, [req])
      | .ok a =>
        match pyIndex a "url" with
        | .error e => (.error e, [req])
        | .ok u => (.ok u, [req])

/-- The request issued by `download_file` (note: no headers are passed). -/
def dlRequest (url : String) : HttpRequest :=
  { method := "GET", url := url, headers := [], jsonBody := none }

/-- `download_file`.  Writes the concatenation of the nonempty chunks of the
streamed body; returns the result, the requests issued, and the new filesystem. -/
def download_file (url : String) (dest_path : List String)
    (net : HttpRequest → HttpResponse) (fs : FsState) :
    Except PyErr (List String) × List HttpRequest × FsState :=
  let fs1 : FsState := { fs with dirs := addDirTree fs.dirs dest_path.dropLast }
  let r := net (dlRequest url)
  if isHttpError r.status then (.error (.httpError r.status), [dlRequest url], fs1)
  else
    let content := (chunksOf 8192 r.rawBody).foldl
      (fun acc chunk => if chunk.isEmpty then acc else acc ++ chunk) []
    (.ok dest_path, [dlRequest url],
     { fs1 with files := (dest_path, content) :: fs1.files })

/-- Line 173 of `main`: `job_info.get("metadata", {}).get("assetIds", [])`. -/
def jobAssetIds (job_info : JValue) : Except PyErr JValue :=
  match pyGetD job_info "metadata" (.obj []) with
  | .error e => .error e
  | .ok m => pyGetD m "assetIds" (.arr [])

/-- Lines 164-165 of `main`: extraction of the job id from the submission
response. -/
def extract_job_id (resp : JValue) : Except PyErr JValue :=
  match pyGet resp "job", pyGet resp "data" with
  | .ok a, .ok b =>
    let job_obj := pyOr a (pyOr b (.obj []))
    (match pyGet job_obj "jobId", pyGet job_obj "id" with
     | .ok x, .ok y => .ok (pyOr x y)
     | .error e, _ => .error e
     | _, .error e => .error e)
  | .error e, _ => .error e
  | _, .error e => .error e

/-- Events observed during `main`'s scene loop (mirroring its prints). -/
inductive MainEvent where
  | submitted (scene : Nat) (jobId : String)
  | submitFailed (scene : Nat) (code : Nat)
  | noJobId (scene : Nat)
  | noAssets (scene : Nat) (jobId : String)
  | assetAttempt (scene : Nat) (idx : Nat) (assetId : String)
  | assetFailed (scene : Nat) (idx : Nat) (assetId : String)
  | assetDownloaded (scene : Nat) (idx : Nat) (path : List String)

/-- The scene index an event belongs to. -/
def MainEvent.scene : MainEvent → Nat
  | .submitted s _ => s
  | .submitFailed s _ => s
  | .noJobId s => s
  | .noAssets s _ => s
  | .assetAttempt s _ _ => s
  | .assetFailed s _ _ => s
  | .assetDownloaded s _ _ => s

/-- The asset id of an `assetAttempt` event (used to state which asset
resolutions were attempted). -/
def attemptId : MainEvent → Option String
  | .assetAttempt _ _ aid => some aid
  | _ => none

/-- External world for one scene: the network oracles consumed by its
submission, its polling loop, and its per-asset fetches and downloads, plus the
clock observed by its polling loop. -/
structure SceneEnv where
  submitNet : HttpRequest → HttpResponse
  pollNet : HttpRequest → Nat → HttpResponse
  pollTimes : Nat → ℤ
  pollStart : ℤ
  pollFuel : Nat
  assetNet : Nat → HttpRequest → HttpResponse
  dlNet : Nat → HttpRequest → HttpResponse

/-- Configuration of `main` after argument/credential resolution. -/
structure MainCfg where
  api_key : String
  api_secret : Option String
  model_id : String
  width : Int
  height : Int
  guidance : ℤ
  steps : Int
  num_samples : Int
  poll_interval : ℤ
  timeout : ℤ
  out_root : List String

/-- Lines 182-188 of `main`: one iteration of the per-asset loop.  Every
exception from `fetch_asset_url` / `download_file` is caught (`except
Exception`), logged and swallowed. -/
def resolveAndDownload (cfg : MainCfg) (env : SceneEnv) (scene idx : Nat)
    (aid : JValue) (sceneDir : List String) (fs : FsState) :
    List MainEvent × FsState :=
  match fetch_asset_url (pyStr aid) cfg.api_key cfg.api_secret (env.assetNet idx) with
  | (.error _, _) => ([.assetAttempt scene idx (pyStr aid), .assetFailed scene idx (pyStr aid)], fs)
  | (.ok urlVal, _) =>
    match urlVal with
    | .str url =>
      let fname := sceneDir ++ ["scene_" ++ pad3 scene ++ "_asset_" ++ toString idx ++ ".png"]
      match download_file url fname (env.dlNet idx) fs with
      | (.ok p, _, fs2) => ([.assetAttempt scene idx (pyStr aid), .assetDownloaded scene idx p], fs2)
      | (.error _, _, fs2) => ([.assetAttempt scene idx (pyStr aid), .assetFailed scene idx (pyStr aid)], fs2)
    | _ => ([.assetAttempt scene idx (pyStr aid), .assetFailed scene idx (pyStr aid)], fs)

/-- The per-asset loop `for idx, aid in enumerate(asset_ids, start=1)`. -/
def processAssets (cfg : MainCfg) (env : SceneEnv) (scene : Nat)
    (sceneDir : List String) : List JValue → Nat → FsState → List MainEvent × FsState
  | [], _, fs => ([], fs)
  | aid :: rest, idx, fs =>
    let pa := resolveAndDownload cfg env scene idx aid sceneDir fs
    let pb := processAssets cfg env scene sceneDir rest (idx + 1) pa.2
    (pa.1 ++ pb.1, pb.2)

/-- The scene loop of `main` (lines 143-188).  Only `requests.HTTPError` from
the submission, and arbitrary exceptions inside the per-asset loop, are caught;
every other exception (in particular anything raised by `poll_job`) propagates
and ends the whole run with `.error`. -/
def mainLoop (cfg : MainCfg) (envs : Nat → SceneEnv) :
    List String → Nat → FsState → Option (Except PyErr Unit × List MainEvent × FsState)
  | [], _, fs => some (.ok (), [], fs)
  | scene :: rest, i, fs =>
    let env := envs i
    match submit_txt2img scene cfg.model_id cfg.api_key cfg.api_secret cfg.width
        cfg.height cfg.guidance cfg.steps cfg.num_samples env.submitNet with
    | (.error (.httpError code), _) =>
      match mainLoop cfg envs rest (i + 1) fs with
      | none => none
      | some (res, evs, fs2) => some (res, .submitFailed i code :: evs, fs2)
    | (.error e, _) => some (.error e, [], fs)
    | (.ok resp, _) =>
      match extract_job_id resp with
      | .error e => some (.error e, [], fs)
      | .ok job_id =>
        if job_id.truthy = false then
          match mainLoop cfg envs rest (i + 1) fs with
          | none => none
          | some (res, evs, fs2) => some (res, .noJobId i :: evs, fs2)
        else
          let jid := pyStr job_id
          match poll_job jid cfg.api_key cfg.api_secret cfg.poll_interval cfg.timeout
              env.pollNet env.pollTimes env.pollStart env.pollFuel with
          | none => none
          | some (.error e, _) => some (.error e, [.submitted i jid], fs)
          | some (.ok job_info, _) =>
            match jobAssetIds job_info with
            | .error e => some (.error e, [.submitted i jid], fs)
            | .ok assetIdsVal =>
              if assetIdsVal.truthy = false then
                match mainLoop cfg envs rest (i + 1) fs with
                | none => none
                | some (res, evs, fs2) =>
                  some (res, .submitted i jid :: .noAssets i jid :: evs, fs2)
              else
                match pyIter assetIdsVal with
                | .error e => some (.error e, [.submitted i jid], fs)
                | .ok aids =>
                  let sceneDir := cfg.out_root ++ ["scene_" ++ pad3 i]
                  let fsA : FsState := { fs with dirs := addDirTree fs.dirs sceneDir }
                  let pa := processAssets cfg env i sceneDir aids 1 fsA
                  match mainLoop cfg envs rest (i + 1) pa.2 with
                  | none => none
                  | some (res, evs, fs2) =>
                    some (res, .submitted i jid :: pa.1 ++ evs, fs2)

/-- `main` (lines 121-188): credential resolution and checks, creation of the
output root, then the scene loop starting at index 1. -/
def mainRun (api_key_env api_key_arg api_secret_env api_secret_arg : Option String)
    (model_id_arg : Option String) (width height : Int) (guidance : ℤ)
    (steps num_samples : Int) (poll_interval timeout : ℤ) (out_root : List String)
    (scenes : List String) (envs : Nat → SceneEnv) (fs0 : FsState) :
    Option (Except PyErr Unit × List MainEvent × FsState) :=
  let api_key := orOptStr api_key_env api_key_arg
  let api_secret := orOptStr api_secret_env api_secret_arg
  if optStrTruthy api_key = false then
    some (.error (.systemExit "Provide SCENARIO_API_KEY in env or --api-key"), [], fs0)
  else if optStrTruthy api_secret = false then
    some (.error (.systemExit "Provide SCENARIO_API_SECRET in env or --api-secret. Scenario API requires both key and secret for Basic authentication."), [], fs0)
  else
    let model_id := if optStrTruthy model_id_arg then model_id_arg.getD "" else "flux.1-dev"
    let cfg : MainCfg :=
      { api_key := api_key.getD "", api_secret := api_secret, model_id := model_id,
        width := width, height := height, guidance := guidance, steps := steps,
        num_samples := num_samples, poll_interval := poll_interval,
        timeout := timeout, out_root := out_root }
    let fs1 : FsState := { fs0 with dirs := addDirTree fs0.dirs out_root }
    mainLoop cfg envs scenes 1 fs1

theorem JValue.isStr_eq {v : JValue} {s : String} (h : v.isStr s = true) : v = .str s := by
  cases v <;> simp [JValue.isStr] at h
  subst h
  rfl

/-- Errors of `data.get("job", {}).get("status")` are attribute errors. -/
theorem pollStatus_error {data : JValue} {e : PyErr} (h : pollStatus data = .error e) :
    ∃ m, e = .attributeError m := by
  cases data with
  | obj fields =>
    cases hl : fields.lookup "job" with
    | none => simp [pollStatus, pyGetD, hl, pyGet] at h
    | some j =>
      cases j <;> simp [pollStatus, pyGetD, hl, pyGet] at h <;> exact ⟨_, h.symm⟩
  | null => exact ⟨_, by simpa [pollStatus, pyGetD] using h.symm⟩
  | bool b => exact ⟨_, by simpa [pollStatus, pyGetD] using h.symm⟩
  | num q => exact ⟨_, by simpa [pollStatus, pyGetD] using h.symm⟩
  | str st => exact ⟨_, by simpa [pollStatus, pyGetD] using h.symm⟩
  | arr items => exact ⟨_, by simpa [pollStatus, pyGetD] using h.symm⟩

/-- Errors of `d[k]` are key or type errors. -/
theorem pyIndex_error {data : JValue} {k : String} {e : PyErr}
    (h : pyIndex data k = .error e) : (∃ m, e = .keyError m) ∨ ∃ m, e = .typeError m := by
  cases data with
  | obj fields =>
    cases hl : fields.lookup k with
    | none => simp [pyIndex, hl] at h; exact Or.inl ⟨_, h.symm⟩
    | some v => simp [pyIndex, hl] at h
  | null => simp [pyIndex] at h; exact Or.inr ⟨_, h.symm⟩
  | bool b => simp [pyIndex] at h; exact Or.inr ⟨_, h.symm⟩
  | num q => simp [pyIndex] at h; exact Or.inr ⟨_, h.symm⟩
  | str st => simp [pyIndex] at h; exact Or.inr ⟨_, h.symm⟩
  | arr items => simp [pyIndex] at h; exact Or.inr ⟨_, h.symm⟩

/-- If the observed status is the string "success", the payload has a "job"
object and the value returned by `data["job"]` carries that status. -/
theorem pyGet_status_of_success {body job : JValue}
    (h1 : pollStatus body = .ok (.str "success")) (h2 : pyIndex body "job" = .ok job) :
    pyGet job "status" = .ok (.str "success") := by
  cases body with
  | obj fields =>
    cases hl : fields.lookup "job" with
    | none => simp [pyIndex, hl] at h2
    | some j =>
      have hj : j = job := by simpa [pyIndex, hl] using h2
      subst hj
      simpa [pollStatus, pyGetD, hl] using h1
  | null => simp [pyIndex] at h2
  | bool b => simp [pyIndex] at h2
  | num q => simp [pyIndex] at h2
  | str st => simp [pyIndex] at h2
  | arr items => simp [pyIndex] at h2

/-- A `none` decision of the loop body is exactly a well-formed, non-terminal,
in-time observation. -/
theorem pollDecision_none_iff (job_id : String) (headers : List (String × String))
    (net : HttpRequest → Nat → HttpResponse) (times : Nat → ℤ) (start timeout : ℤ)
    (i : Nat) :
    pollDecision job_id headers net times start timeout i = none ↔
      (isHttpError (net (pollRequest job_id headers) i).status = false ∧
       ∃ v, pollStatus (net (pollRequest job_id headers) i).body = .ok v ∧
         v.isStr "success" = false ∧ v.isStr "failure" = false ∧
         v.isStr "canceled" = false ∧ ¬(timeout < times i - start)) := by
  cases hh : isHttpError (net (pollRequest job_id headers) i).status with
  | true => simp [pollDecision, hh]
  | false =>
    cases hs : pollStatus (net (pollRequest job_id headers) i).body with
    | error e => simp [pollDecision, hh, hs]
    | ok status =>
      by_cases h1 : status.isStr "success" = true
      · cases hj : pyIndex (net (pollRequest job_id headers) i).body "job" with
        | ok job => simp [pollDecision, hh, hs, h1, hj]
        | error e => simp [pollDecision, hh, hs, h1, hj]
      · rw [Bool.not_eq_true] at h1
        by_cases h2 : (status.isStr "failure" || status.isStr "canceled") = true
        · simp only [Bool.or_eq_true] at h2
          rcases h2 with h2 | h2 <;>
            simp [pollDecision, hh, hs, h1, h2]
        · simp only [Bool.or_eq_true, not_or, Bool.not_eq_true] at h2
          by_cases h3 : timeout < times i - start
          · simp [pollDecision, hh, hs, h1, h2.1, h2.2, h3]
          · simp [pollDecision, hh, hs, h1, h2.1, h2.2, h3]

/-- A loop iteration that returns a job saw the status "success" and returned
exactly `data["job"]`. -/
theorem pollDecision_ok (job_id : String) (headers : List (String × String))
    (net : HttpRequest → Nat → HttpResponse) (times : Nat → ℤ) (start timeout : ℤ)
    (i : Nat) (job : JValue)
    (h : pollDecision job_id headers net times start timeout i = some (.ok job)) :
    pollStatus (net (pollRequest job_id headers) i).body = .ok (.str "success") ∧
      pyIndex (net (pollRequest job_id headers) i).body "job" = .ok job := by
  cases hh : isHttpError (net (pollRequest job_id headers) i).status with
  | true => simp [pollDecision, hh] at h
  | false =>
    cases hs : pollStatus (net (pollRequest job_id headers) i).body with
    | error e => simp [pollDecision, hh, hs] at h
    | ok status =>
      by_cases h1 : status.isStr "success" = true
      · cases hj : pyIndex (net (pollRequest job_id headers) i).body "job" with
        | ok job2 =>
          have hjob : job2 = job := by
            simpa [pollDecision, hh, hs, h1, hj] using h
          subst hjob
          have hstat : status = .str "success" := JValue.isStr_eq h1
          subst hstat
          exact ⟨rfl, rfl⟩
        | error e => simp [pollDecision, hh, hs, h1, hj] at h
      · rw [Bool.not_eq_true] at h1
        by_cases h2 : (status.isStr "failure" || status.isStr "canceled") = true
        · simp only [Bool.or_eq_true] at h2
          rcases h2 with h2 | h2 <;> simp [pollDecision, hh, hs, h1, h2] at h
        · simp only [Bool.or_eq_true, not_or, Bool.not_eq_true] at h2
          by_cases h3 : timeout < times i - start <;>
            simp [pollDecision, hh, hs, h1, h2.1, h2.2, h3] at h

/-- A loop iteration that raises `RuntimeError` saw status "failure" or
"canceled", and the message embeds the job id and the dumped payload. -/
theorem pollDecision_runtime (job_id : String) (headers : List (String × String))
    (net : HttpRequest → Nat → HttpResponse) (times : Nat → ℤ) (start timeout : ℤ)
    (i : Nat) (msg : String)
    (h : pollDecision job_id headers net times start timeout i =
      some (.error (.runtimeError msg))) :
    ∃ v, pollStatus (net (pollRequest job_id headers) i).body = .ok v ∧
      (v.isStr "failure" || v.isStr "canceled") = true ∧
      msg = jobFailMsg job_id v (net (pollRequest job_id headers) i).body := by
  cases hh : isHttpError (net (pollRequest job_id headers) i).status with
  | true => simp [pollDecision, hh] at h
  | false =>
    cases hs : pollStatus (net (pollRequest job_id headers) i).body with
    | error e =>
      obtain ⟨m, rfl⟩ := pollStatus_error hs
      simp [pollDecision, hh, hs] at h
    | ok status =>
      by_cases h1 : status.isStr "success" = true
      · cases hj : pyIndex (net (pollRequest job_id headers) i).body "job" with
        | ok job2 => simp [pollDecision, hh, hs, h1, hj] at h
        | error e =>
          rcases pyIndex_error hj with ⟨m, rfl⟩ | ⟨m, rfl⟩ <;>
            simp [pollDecision, hh, hs, h1, hj] at h
      · rw [Bool.not_eq_true] at h1
        by_cases h2 : (status.isStr "failure" || status.isStr "canceled") = true
        · refine ⟨status, rfl, h2, ?_⟩
          simp only [Bool.or_eq_true] at h2
          rcases h2 with h2 | h2 <;>
          · have := h
            simp [pollDecision, hh, hs, h1, h2] at this
            exact this.symm
        · simp only [Bool.or_eq_true, not_or, Bool.not_eq_true] at h2
          by_cases h3 : timeout < times i - start <;>
            simp [pollDecision, hh, hs, h1, h2.1, h2.2, h3] at h

/-- A loop iteration that raises `TimeoutError` did so only with the timeout
genuinely elapsed and a well-formed non-terminal status observed. -/
theorem pollDecision_timeout (job_id : String) (headers : List (String × String))
    (net : HttpRequest → Nat → HttpResponse) (times : Nat → ℤ) (start timeout : ℤ)
    (i : Nat) (msg : String)
    (h : pollDecision job_id headers net times start timeout i =
      some (.error (.timeoutError msg))) :
    timeout < times i - start ∧ msg = timeoutMsg job_id timeout ∧
      ∃ v, pollStatus (net (pollRequest job_id headers) i).body = .ok v ∧
        v.isStr "success" = false ∧ v.isStr "failure" = false ∧
        v.isStr "canceled" = false := by
  cases hh : isHttpError (net (pollRequest job_id headers) i).status with
  | true => simp [pollDecision, hh] at h
  | false =>
    cases hs : pollStatus (net (pollRequest job_id headers) i).body with
    | error e =>
      obtain ⟨m, rfl⟩ := pollStatus_error hs
      simp [pollDecision, hh, hs] at h
    | ok status =>
      by_cases h1 : status.isStr "success" = true
      · cases hj : pyIndex (net (pollRequest job_id headers) i).body "job" with
        | ok job2 => simp [pollDecision, hh, hs, h1, hj] at h
        | error e =>
          rcases pyIndex_error hj with ⟨m, rfl⟩ | ⟨m, rfl⟩ <;>
            simp [pollDecision, hh, hs, h1, hj] at h
      · rw [Bool.not_eq_true] at h1
        by_cases h2 : (status.isStr "failure" || status.isStr "canceled") = true
        · simp only [Bool.or_eq_true] at h2
          rcases h2 with h2 | h2 <;> simp [pollDecision, hh, hs, h1, h2] at h
        · simp only [Bool.or_eq_true, not_or, Bool.not_eq_true] at h2
          by_cases h3 : timeout < times i - start
          · have hm : msg = timeoutMsg job_id timeout := by
              have := h
              simp [pollDecision, hh, hs, h1, h2.1, h2.2, h3] at this
              exact this.symm
            exact ⟨h3, hm, status, rfl, h1, h2.1, h2.2⟩
          · simp [pollDecision, hh, hs, h1, h2.1, h2.2, h3] at h

/-- Any exit of the polling loop is produced by the first deciding iteration:
the loop issued one request per iteration, all earlier iterations decided to
keep polling, and the final iteration produced the result. -/
theorem pollLoop_spec (job_id : String) (headers : List (String × String))
    (net : HttpRequest → Nat → HttpResponse) (times : Nat → ℤ) (start timeout : ℤ) :
    ∀ fuel i res reqs,
      pollLoop job_id headers net times start timeout fuel i = some (res, reqs) →
      ∃ k, k + 1 ≤ fuel ∧ reqs = List.replicate (k + 1) (pollRequest job_id headers) ∧
        pollDecision job_id headers net times start timeout (i + k) = some res ∧
        ∀ j, j < k → pollDecision job_id headers net times start timeout (i + j) = none := by
  intro fuel
  induction fuel with
  | zero => intro i res reqs h; simp [pollLoop] at h
  | succ f ih =>
    intro i res reqs h
    rw [pollLoop] at h
    cases hdec : pollDecision job_id headers net times start timeout i with
    | some r =>
      rw [hdec] at h
      simp only [Option.some.injEq, Prod.mk.injEq] at h
      refine ⟨0, by omega, ?_, ?_, ?_⟩
      · rw [← h.2]; rfl
      · rw [Nat.add_zero, hdec, h.1]
      · intro j hj; omega
    | none =>
      rw [hdec] at h
      cases hrec : pollLoop job_id headers net times start timeout f (i + 1) with
      | none => rw [hrec] at h; simp at h
      | some pr =>
        obtain ⟨res2, reqs2⟩ := pr
        rw [hrec] at h
        simp only [Option.some.injEq, Prod.mk.injEq] at h
        obtain ⟨k, hk, hreq, hdecs, hnone⟩ := ih (i + 1) res2 reqs2 hrec
        refine ⟨k + 1, by omega, ?_, ?_, ?_⟩
        · rw [← h.2, hreq]; rfl
        · have hn : i + (k + 1) = (i + 1) + k := by omega
          rw [hn, hdecs, h.1]
        · intro j hj
          cases j with
          | zero => exact hdec
          | succ j2 =>
            have hn : i + (j2 + 1) = (i + 1) + j2 := by omega
            rw [hn]
            exact hnone j2 (by omega)

/-- If some iteration within the fuel budget would decide, the loop finishes. -/
theorem pollLoop_finishes (job_id : String) (headers : List (String × String))
    (net : HttpRequest → Nat → HttpResponse) (times : Nat → ℤ) (start timeout : ℤ) :
    ∀ fuel i,
      (∃ k, k < fuel ∧
        (pollDecision job_id headers net times start timeout (i + k)).isSome = true) →
      (pollLoop job_id headers net times start timeout fuel i).isSome = true := by
  intro fuel
  induction fuel with
  | zero =>
    intro i h
    obtain ⟨k, hk, -⟩ := h
    omega
  | succ f ih =>
    intro i h
    obtain ⟨k, hk, hsome⟩ := h
    rw [pollLoop]
    cases hdec : pollDecision job_id headers net times start timeout i with
    | some r => simp
    | none =>
      have hk0 : k ≠ 0 := by
        intro h0
        rw [h0, Nat.add_zero, hdec] at hsome
        simp at hsome
      have hres := ih (i + 1) ⟨k - 1, by omega, by
        have hn : (i + 1) + (k - 1) = i + k := by omega
        rw [hn]; exact hsome⟩
      cases hrec : pollLoop job_id headers net times start timeout f (i + 1) with
      | none => rw [hrec] at hres; simp at hres
      | some pr =>
        obtain ⟨res2, reqs2⟩ := pr
        simp

/-- Once the clock passes the deadline, the iteration necessarily decides. -/
theorem pollDecision_isSome_of_late (job_id : String) (headers : List (String × String))
    (net : HttpRequest → Nat → HttpResponse) (times : Nat → ℤ) (start timeout : ℤ)
    (i : Nat) (h : timeout < times i - start) :
    (pollDecision job_id headers net times start timeout i).isSome = true := by
  cases hd : pollDecision job_id headers net times start timeout i with
  | some r => simp
  | none =>
    obtain ⟨-, v, -, -, -, -, hlate⟩ := (pollDecision_none_iff job_id headers net
      times start timeout i).mp hd
    exact absurd h hlate

/-- Exhaustive description of the results one loop iteration can decide. -/
theorem pollDecision_cases (job_id : String) (headers : List (String × String))
    (net : HttpRequest → Nat → HttpResponse) (times : Nat → ℤ) (start timeout : ℤ)
    (i : Nat) (res : Except PyErr JValue)
    (h : pollDecision job_id headers net times start timeout i = some res) :
    (∃ job, res = .ok job) ∨
    (∃ c, res = .error (.httpError c) ∧
      isHttpError (net (pollRequest job_id headers) i).status = true) ∨
    (∃ msg, res = .error (.runtimeError msg)) ∨
    (∃ msg, res = .error (.timeoutError msg)) ∨
    (∃ e, res = .error e ∧
      pollStatus (net (pollRequest job_id headers) i).body = .error e) ∨
    (∃ e, res = .error e ∧
      pollStatus (net (pollRequest job_id headers) i).body = .ok (.str "success") ∧
      pyIndex (net (pollRequest job_id headers) i).body "job" = .error e) := by
  cases hh : isHttpError (net (pollRequest job_id headers) i).status with
  | true =>
    have hres : res = .error (.httpError (net (pollRequest job_id headers) i).status) := by
      have := h
      simp [pollDecision, hh] at this
      exact this.symm
    exact Or.inr (Or.inl ⟨_, hres, rfl⟩)
  | false =>
    cases hs : pollStatus (net (pollRequest job_id headers) i).body with
    | error e =>
      have hres : res = .error e := by
        have := h
        simp [pollDecision, hh, hs] at this
        exact this.symm
      exact Or.inr (Or.inr (Or.inr (Or.inr (Or.inl ⟨e, hres, rfl⟩))))
    | ok status =>
      by_cases h1 : status.isStr "success" = true
      · cases hj : pyIndex (net (pollRequest job_id headers) i).body "job" with
        | ok job =>
          have hres : res = .ok job := by
            have := h
            simp [pollDecision, hh, hs, h1, hj] at this
            exact this.symm
          exact Or.inl ⟨job, hres⟩
        | error e =>
          have hres : res = .error e := by
            have := h
            simp [pollDecision, hh, hs, h1, hj] at this
            exact this.symm
          have hsucc : status = .str "success" := JValue.isStr_eq h1
          subst hsucc
          exact Or.inr (Or.inr (Or.inr (Or.inr (Or.inr ⟨e, hres, rfl, rfl⟩))))
      · rw [Bool.not_eq_true] at h1
        by_cases h2 : (status.isStr "failure" || status.isStr "canceled") = true
        · have hres : res = .error (.runtimeError
              (jobFailMsg job_id status (net (pollRequest job_id headers) i).body)) := by
            simp only [Bool.or_eq_true] at h2
            have := h
            rcases h2 with h2 | h2 <;>
            · simp [pollDecision, hh, hs, h1, h2] at this
              exact this.symm
          exact Or.inr (Or.inr (Or.inl ⟨_, hres⟩))
        · simp only [Bool.or_eq_true, not_or, Bool.not_eq_true] at h2
          by_cases h3 : timeout < times i - start
          · have hres : res = .error (.timeoutError (timeoutMsg job_id timeout)) := by
              have := h
              simp [pollDecision, hh, hs, h1, h2.1, h2.2, h3] at this
              exact this.symm
            exact Or.inr (Or.inr (Or.inr (Or.inl ⟨_, hres⟩)))
          · simp [pollDecision, hh, hs, h1, h2.1, h2.2, h3] at h

/-- Claim C1: `poll_job` never returns a job in a non-terminal state: it
returns a job only when the observed status is "success" (and the returned
job carries that status), raises a `RuntimeError` exactly on an observed
"failure"/"canceled", raises a `TimeoutError` only once the timeout has
elapsed, and after the first observation of a terminal status no further
status request is issued (all but the last of the issued requests observed a
non-terminal status). -/
theorem C1_poll_only_terminal (job_id api_key : String) (api_secret : Option String)
    (headers : List (String × String))
    (hauth : make_auth_headers api_key api_secret = .ok headers)
    (poll_interval timeout : ℤ) (net : HttpRequest → Nat → HttpResponse)
    (times : Nat → ℤ) (start : ℤ) (fuel : Nat) (res : Except PyErr JValue)
    (reqs : List HttpRequest)
    (hrun : poll_job job_id api_key api_secret poll_interval timeout net times start fuel =
      some (res, reqs)) :
    1 ≤ reqs.length ∧
    (∀ job, res = .ok job →
      pyGet job "status" = .ok (.str "success") ∧
      pollStatus (net (pollRequest job_id headers) (reqs.length - 1)).body =
        .ok (.str "success")) ∧
    (∀ msg, res = .error (.runtimeError msg) →
      ∃ v, pollStatus (net (pollRequest job_id headers) (reqs.length - 1)).body = .ok v ∧
        (v.isStr "failure" || v.isStr "canceled") = true) ∧
    (∀ msg, res = .error (.timeoutError msg) →
      timeout < times (reqs.length - 1) - start) ∧
    (∀ j, j + 1 < reqs.length →
      ∃ v, pollStatus (net (pollRequest job_id headers) j).body = .ok v ∧
        v.isStr "success" = false ∧ v.isStr "failure" = false ∧
        v.isStr "canceled" = false) := by
  rw [poll_job, hauth] at hrun
  obtain ⟨k, hk, hreq, hdec, hnone⟩ :=
    pollLoop_spec job_id headers net times start timeout fuel 0 res reqs hrun
  rw [Nat.zero_add] at hdec
  have hlen : reqs.length = k + 1 := by rw [hreq, List.length_replicate]
  have hlen1 : reqs.length - 1 = k := by omega
  refine ⟨by omega, ?_, ?_, ?_, ?_⟩
  · intro job hres
    subst hres
    obtain ⟨hs, hj⟩ := pollDecision_ok job_id headers net times start timeout k job hdec
    rw [hlen1]
    exact ⟨pyGet_status_of_success hs hj, hs⟩
  · intro msg hres
    subst hres
    obtain ⟨v, hs, hterm, -⟩ :=
      pollDecision_runtime job_id headers net times start timeout k msg hdec
    rw [hlen1]
    exact ⟨v, hs, hterm⟩
  · intro msg hres
    subst hres
    rw [hlen1]
    exact (pollDecision_timeout job_id headers net times start timeout k msg hdec).1
  · intro j hj
    have hjk : j < k := by omega
    have := hnone j hjk
    rw [Nat.zero_add] at this
    obtain ⟨-, v, hs, hv1, hv2, hv3, -⟩ :=
      (pollDecision_none_iff job_id headers net times start timeout j).mp this
    exact ⟨v, hs, hv1, hv2, hv3⟩

/-- Claim C9: statuses outside success/failure/canceled (including a missing
status) are treated as non-terminal: while the deadline has not passed, the
loop keeps polling; if such statuses persist (with 2xx responses), the only
possible outcome is a `TimeoutError`; and `poll_job` never returns a job whose
status is not "success". -/
theorem C9_unrecognized_status (job_id api_key : String) (api_secret : Option String)
    (headers : List (String × String))
    (hauth : make_auth_headers api_key api_secret = .ok headers)
    (poll_interval timeout : ℤ) (net : HttpRequest → Nat → HttpResponse)
    (times : Nat → ℤ) (start : ℤ) :
    (∀ i v, isHttpError (net (pollRequest job_id headers) i).status = false →
      pollStatus (net (pollRequest job_id headers) i).body = .ok v →
      v.isStr "success" = false → v.isStr "failure" = false →
      v.isStr "canceled" = false → ¬(timeout < times i - start) →
      pollDecision job_id headers net times start timeout i = none) ∧
    ((∀ i, isHttpError (net (pollRequest job_id headers) i).status = false ∧
        ∃ v, pollStatus (net (pollRequest job_id headers) i).body = .ok v ∧
          v.isStr "success" = false ∧ v.isStr "failure" = false ∧
          v.isStr "canceled" = false) →
      ∀ fuel res reqs,
        poll_job job_id api_key api_secret poll_interval timeout net times start fuel =
          some (res, reqs) →
        res = .error (.timeoutError (timeoutMsg job_id timeout))) ∧
    (∀ fuel job reqs,
      poll_job job_id api_key api_secret poll_interval timeout net times start fuel =
        some (.ok job, reqs) →
      pyGet job "status" = .ok (.str "success")) := by
  refine ⟨?_, ?_, ?_⟩
  · intro i v hh hs h1 h2 h3 h4
    exact (pollDecision_none_iff job_id headers net times start timeout i).mpr
      ⟨hh, v, hs, h1, h2, h3, h4⟩
  · intro hwf fuel res reqs hrun
    rw [poll_job, hauth] at hrun
    obtain ⟨k, -, -, hdec, -⟩ :=
      pollLoop_spec job_id headers net times start timeout fuel 0 res reqs hrun
    rw [Nat.zero_add] at hdec
    obtain ⟨hh, v, hs, hv1, hv2, hv3⟩ := hwf k
    rcases pollDecision_cases job_id headers net times start timeout k res hdec with
      ⟨job, hres⟩ | ⟨c, hres, hhttp⟩ | ⟨msg, hres⟩ | ⟨msg, hres⟩ |
      ⟨e, hres, herr⟩ | ⟨e, hres, hsucc, -⟩
    · subst hres
      obtain ⟨hsucc, -⟩ := pollDecision_ok job_id headers net times start timeout k job hdec
      rw [hsucc] at hs
      obtain rfl : JValue.str "success" = v := by simpa using hs
      simp [JValue.isStr] at hv1
    · rw [hh] at hhttp
      cases hhttp
    · subst hres
      obtain ⟨w, hws, hwterm, -⟩ :=
        pollDecision_runtime job_id headers net times start timeout k msg hdec
      rw [hws] at hs
      obtain rfl : w = v := by simpa using hs
      simp [hv2, hv3] at hwterm
    · subst hres
      obtain ⟨-, hm, -⟩ :=
        pollDecision_timeout job_id headers net times start timeout k msg hdec
      rw [hm]
    · rw [herr] at hs
      cases hs
    · rw [hsucc] at hs
      obtain rfl : JValue.str "success" = v := by simpa using hs
      simp [JValue.isStr] at hv1
  · intro fuel job reqs hrun
    rw [poll_job, hauth] at hrun
    obtain ⟨k, -, -, hdec, -⟩ :=
      pollLoop_spec job_id headers net times start timeout fuel 0 (.ok job) reqs hrun
    rw [Nat.zero_add] at hdec
    obtain ⟨hs, hj⟩ := pollDecision_ok job_id headers net times start timeout k job hdec
    exact pyGet_status_of_success hs hj

/-- The clock stream grows at least linearly under the sleep assumption. -/
theorem times_growth (times : Nat → ℤ) (interval : ℤ)
    (hstep : ∀ i, times i + interval ≤ times (i + 1)) :
    ∀ k, times 0 + k * interval ≤ times k := by
  intro k
  induction k with
  | zero => simp
  | succ k ih =>
    have := hstep k
    have hcast : ((k : ℤ) + 1) * interval = k * interval + interval := by ring
    push_cast
    rw [hcast]
    omega

/-- A network oracle that always answers 200 with a "running" status. -/
def runningNet : HttpRequest → Nat → HttpResponse :=
  fun _ _ =>
    { status := 200
      body := .obj [("job", .obj [("status", .str "running"), ("progress", .num 50)])]
      rawBody := [] }

/-- Clock observing a check every 3 seconds (instant responses, exact sleeps). -/
def linTimes : Nat → ℤ := fun i => 3 * i

/-- Clock advancing one second per check. -/
def natTimes : Nat → ℤ := fun i => i

/-- Claim C6: polling a job that never leaves "running" with interval 3 and
timeout 10 raises a `TimeoutError` after 5 requests, at elapsed time 12 —
strictly past the timeout yet within one interval past it; and in general,
for every positive interval and non-negative timeout, a clock that starts no
earlier than `start` and advances by at least the interval between checks
forces the polling loop to finish for some fuel (it cannot loop forever). -/
theorem C6_poll_timeout_terminates :
    (∃ msg reqs,
      poll_job "job_x" "k" (some "s") 3 10 runningNet linTimes 0 6 =
        some (.error (.timeoutError msg), reqs) ∧
      reqs.length = 5 ∧ 10 < linTimes (reqs.length - 1) - 0 ∧
      linTimes (reqs.length - 1) - 0 ≤ 10 + 3) ∧
    (∀ (job_id api_key : String) (api_secret : Option String)
       (interval timeout start : ℤ) (net : HttpRequest → Nat → HttpResponse)
       (times : Nat → ℤ) (fuel : Nat),
       0 < interval → 0 ≤ timeout → start ≤ times 0 →
       (∀ i, times i + interval ≤ times (i + 1)) →
       timeout.toNat + 2 ≤ fuel →
       (poll_job job_id api_key api_secret interval timeout net times start fuel).isSome =
         true) := by
  constructor
  · exact ⟨timeoutMsg "job_x" 10, _, rfl, rfl, by decide, by decide⟩
  · intro job_id api_key api_secret interval timeout start net times fuel hpos htime h0
      hstep hfuel
    cases hauths : make_auth_headers api_key api_secret with
    | error e => rw [poll_job, hauths]; rfl
    | ok headers =>
      set k := timeout.toNat + 1 with hkdef
      have hlate : timeout < times k - start := by
        have hg := times_growth times interval hstep k
        have hk1 : (k : ℤ) ≤ (k : ℤ) * interval := by
          nlinarith [Int.natCast_nonneg k]
        have hkt : timeout < (k : ℤ) := by
          have := Int.self_le_toNat timeout
          push_cast [hkdef]
          omega
        omega
      rw [poll_job, hauths]
      exact pollLoop_finishes job_id headers net times start timeout fuel 0
        ⟨k, by omega, pollDecision_isSome_of_late job_id headers net times start
          timeout (0 + k) (by rw [Nat.zero_add]; exact hlate)⟩

/-- Witness for C6: the general termination statement applied to a concrete
never-terminal job with interval 1, timeout 2 and fuel 4. -/
theorem C6_witness :
    (poll_job "j" "k" (some "s") 1 2 runningNet natTimes 0 4).isSome = true := by
  refine C6_poll_timeout_terminates.2 "j" "k" (some "s") 1 2 0 runningNet natTimes 4
    (by decide) (by decide) (by decide) ?_ (by decide)
  intro i
  simp only [natTimes]
  push_cast
  omega

/-- Headers produced by `make_auth_headers "key" (some "secret")`. -/
def secretHeaders : List (String × String) :=
  [("Authorization", "Basic a2V5OnNlY3JldA=="),
   ("Content-Type", "application/json"),
   ("accept", "application/json")]

/-- The job object of a successfully finished concrete job. -/
def successJobV : JValue :=
  .obj [("status", .str "success"),
        ("metadata", .obj [("assetIds", .arr [.str "asset_1"])])]

/-- A network oracle whose job endpoint immediately reports success. -/
def successNet : HttpRequest → Nat → HttpResponse :=
  fun _ _ => { status := 200
               body := .obj [("job", successJobV)]
               rawBody := [] }

/-- Witness for C1: a concrete run that immediately observes "success" returns
the job object, whose status is "success", after a single request. -/
theorem C1_witness :
    pyGet successJobV "status" = .ok (.str "success") ∧
    1 ≤ [pollRequest "job_123" secretHeaders].length := by
  have h := C1_poll_only_terminal "job_123" "key" (some "secret") secretHeaders rfl 3 300
    successNet natTimes 0 2 (.ok successJobV) [pollRequest "job_123" secretHeaders] rfl
  exact ⟨(h.2.1 successJobV rfl).1, h.1⟩

/-- Witness for C9: a concrete "running" observation before the deadline makes
the loop continue (decision `none`). -/
theorem C9_witness :
    pollDecision "job_r" secretHeaders runningNet natTimes 0 300 0 = none := by
  have h := C9_unrecognized_status "job_r" "key" (some "secret") secretHeaders rfl 3 300
    runningNet natTimes 0
  exact h.1 0 (.str "running") (by decide) rfl (by decide) (by decide) (by decide)
    (by decide)

/-- A network oracle answering 200 with a body containing a job id. -/
def okNet : HttpRequest → HttpResponse :=
  fun _ => { status := 200
             body := .obj [("job", .obj [("jobId", .str "j1")])]
             rawBody := [] }

/-- Counterexample to C4 as stated: with the API key absent (empty, hence
falsy) but the secret present, `submit_txt2img` raises nothing and performs
one HTTP request — not zero. -/
theorem C4_counterexample :
    (submit_txt2img "p" "m" "" (some "s") 1024 1024 10 30 1 okNet).2.length = 1 ∧
    (submit_txt2img "p" "m" "" (some "s") 1024 1024 10 30 1 okNet).1 =
      .ok (.obj [("job", .obj [("jobId", .str "j1")])]) :=
  ⟨rfl, rfl⟩

/-- Claim C4 (amended): only the API secret is checked: whenever it is absent
(`None` or empty), `submit_txt2img` raises the configuration `ValueError`
before any network call, performing zero HTTP requests. -/
theorem C4_no_secret_no_request (prompt model_id api_key : String)
    (api_secret : Option String) (width height : Int) (guidance : ℤ)
    (steps num_samples : Int) (net : HttpRequest → HttpResponse)
    (hsec : optStrTruthy api_secret = false) :
    submit_txt2img prompt model_id api_key api_secret width height guidance steps
      num_samples net = (.error (.valueError authErrorMsg), []) := by
  simp [submit_txt2img, make_auth_headers, hsec]

/-- Witness for C4 (amended): a concrete call with `api_secret = None`. -/
theorem C4_witness :
    submit_txt2img "a house" "flux.1-dev" "key" none 1024 1024 10 30 1 okNet =
      (.error (.valueError authErrorMsg), []) :=
  C4_no_secret_no_request "a house" "flux.1-dev" "key" none 1024 1024 10 30 1 okNet rfl

/-- A network oracle answering 200 with an empty JSON object. -/
def emptyOkNet : HttpRequest → HttpResponse :=
  fun _ => { status := 200, body := .obj [], rawBody := [] }

/-- Counterexample to C3 as stated: on a 200 response with an empty body,
`submit_txt2img` returns without raising, one request was made, and the job-id
extraction performed by `main` yields `None` (falsy) — a returned value
lacking a job identifier, with no error raised. -/
theorem C3_counterexample :
    (submit_txt2img "p" "m" "k" (some "s") 1024 1024 10 30 1 emptyOkNet).1 =
      .ok (.obj []) ∧
    (submit_txt2img "p" "m" "k" (some "s") 1024 1024 10 30 1 emptyOkNet).2.length = 1 ∧
    extract_job_id (.obj []) = .ok .null ∧
    JValue.truthy .null = false :=
  ⟨rfl, rfl, rfl, rfl⟩

/-- Claim C3 (amended): `submit_txt2img` either raises (configuration or HTTP
error) or returns the full parsed response body of its single request; the job
identifier is extracted afterwards by `main`, which on a missing/falsy id
skips the scene (logging `noJobId`) and continues with the next scene instead
of raising. -/
theorem C3_submit_returns_body_or_raises :
    (∀ (prompt model_id api_key : String) (api_secret : Option String)
       (width height : Int) (guidance : ℤ) (steps num_samples : Int)
       (net : HttpRequest → HttpResponse),
       (∃ e, (submit_txt2img prompt model_id api_key api_secret width height guidance
         steps num_samples net).1 = .error e) ∨
       (∃ req, (submit_txt2img prompt model_id api_key api_secret width height guidance
           steps num_samples net).2 = [req] ∧
         (submit_txt2img prompt model_id api_key api_secret width height guidance
           steps num_samples net).1 = .ok (net req).body)) ∧
    (∀ (cfg : MainCfg) (envs : Nat → SceneEnv) (scene : String) (rest : List String)
       (i : Nat) (fs : FsState) (resp : JValue) (tr : List HttpRequest) (v : JValue),
       submit_txt2img scene cfg.model_id cfg.api_key cfg.api_secret cfg.width cfg.height
         cfg.guidance cfg.steps cfg.num_samples (envs i).submitNet = (.ok resp, tr) →
       extract_job_id resp = .ok v → v.truthy = false →
       mainLoop cfg envs (scene :: rest) i fs =
         (mainLoop cfg envs rest (i + 1) fs).map
           (fun out => (out.1, .noJobId i :: out.2.1, out.2.2))) := by
  constructor
  · intro prompt model_id api_key api_secret width height guidance steps num_samples net
    cases hh : make_auth_headers api_key api_secret with
    | error e => exact Or.inl ⟨e, by simp [submit_txt2img, hh]⟩
    | ok headers =>
      by_cases hcode : isHttpError (net (submitRequest prompt model_id headers width
        height guidance steps num_samples)).status = true
      · exact Or.inl ⟨.httpError (net (submitRequest prompt model_id headers width
          height guidance steps num_samples)).status,
          by simp [submit_txt2img, hh, hcode]⟩
      · rw [Bool.not_eq_true] at hcode
        exact Or.inr ⟨submitRequest prompt model_id headers width height guidance
          steps num_samples,
          by simp [submit_txt2img, hh, hcode],
          by simp [submit_txt2img, hh, hcode]⟩
  · intro cfg envs scene rest i fs resp tr v hsub hjid hfalsy
    simp only [mainLoop, hsub, hjid, hfalsy]
    cases mainLoop cfg envs rest (i + 1) fs with
    | none => rfl
    | some out => rfl

/-- Claim C5 (amended): requests of submission, job polling and asset-metadata
fetch all carry exactly the `make_auth_headers` headers, whose Authorization
value is `"Basic " ++ base64(key ++ ":" ++ secret)`; the binary download
request of `download_file` carries no Authorization header at all. -/
theorem C5_auth_headers (api_key : String) (api_secret : Option String)
    (headers : List (String × String))
    (hauth : make_auth_headers api_key api_secret = .ok headers) :
    headers.lookup "Authorization" =
      some ("Basic " ++ b64encode (utf8Bytes (api_key ++ ":" ++ api_secret.getD ""))) ∧
    (∀ (prompt model_id : String) (width height : Int) (guidance : ℤ)
       (steps num_samples : Int) (net : HttpRequest → HttpResponse) req,
       req ∈ (submit_txt2img prompt model_id api_key api_secret width height guidance
         steps num_samples net).2 → req.headers = headers) ∧
    (∀ (job_id : String) (poll_interval timeout : ℤ)
       (net : HttpRequest → Nat → HttpResponse) (times : Nat → ℤ) (start : ℤ)
       (fuel : Nat) (res : Except PyErr JValue) (reqs : List HttpRequest) req,
       poll_job job_id api_key api_secret poll_interval timeout net times start fuel =
         some (res, reqs) →
       req ∈ reqs → req.headers = headers) ∧
    (∀ (asset_id : String) (net : HttpRequest → HttpResponse) req,
       req ∈ (fetch_asset_url asset_id api_key api_secret net).2 →
       req.headers = headers) ∧
    (∀ (url : String) (dest : List String) (net : HttpRequest → HttpResponse)
       (fs : FsState) req,
       req ∈ (download_file url dest net fs).2.1 →
       req.headers.lookup "Authorization" = none) := by
  have hhdrs : headers =
      [("Authorization", basicAuthValue api_key (api_secret.getD "")),
       ("Content-Type", "application/json"),
       ("accept", "application/json")] := by
    cases hsec : optStrTruthy api_secret with
    | false => rw [make_auth_headers, hsec] at hauth; cases hauth
    | true =>
      rw [make_auth_headers, hsec] at hauth
      simpa using hauth.symm
  refine ⟨?_, ?_, ?_, ?_, ?_⟩
  · rw [hhdrs]
    rfl
  · intro prompt model_id width height guidance steps num_samples net req hreq
    rw [submit_txt2img, hauth] at hreq
    by_cases hcode : isHttpError (net (submitRequest prompt model_id headers width
      height guidance steps num_samples)).status = true <;>
      simp only [hcode, Bool.false_eq_true, if_true, if_false, List.mem_singleton] at hreq <;>
      rw [hreq] <;> rfl
  · intro job_id poll_interval timeout net times start fuel res reqs req hrun hreq
    rw [poll_job, hauth] at hrun
    obtain ⟨k, -, hreqs, -, -⟩ :=
      pollLoop_spec job_id headers net times start timeout fuel 0 res reqs hrun
    rw [hreqs] at hreq
    rw [List.eq_of_mem_replicate hreq]
    rfl
  · intro asset_id net req hreq
    rw [fetch_asset_url, hauth] at hreq
    by_cases hcode : isHttpError (net (assetRequest asset_id headers)).status = true
    · simp only [hcode, if_true, List.mem_singleton] at hreq
      rw [hreq]
      rfl
    · rw [Bool.not_eq_true] at hcode
      simp only [hcode, Bool.false_eq_true, if_false] at hreq
      rcases hj : pyIndex (net (assetRequest asset_id headers)).body "asset" with e | a
      · simp only [hj, List.mem_singleton] at hreq
        rw [hreq]
        rfl
      · rcases hu : pyIndex a "url" with e | u <;>
          simp only [hj, hu, List.mem_singleton] at hreq <;> rw [hreq] <;> rfl
  · intro url dest net fs req hreq
    rw [download_file] at hreq
    by_cases hcode : isHttpError (net (dlRequest url)).status = true <;>
      simp [hcode] at hreq <;> rw [hreq] <;> rfl

/-- A network oracle with no special headers, serving raw bytes. -/
def plainNet : HttpRequest → HttpResponse :=
  fun _ => { status := 200, body := .null, rawBody := [1, 2, 3] }

def fsEmpty : FsState := { dirs := [], files := [] }

/-- Counterexample to C5 as stated: the download request issued by
`download_file` carries no Authorization header. -/
theorem C5_counterexample :
    (download_file "https://cdn.example/img.png" ["outputs", "scene_001", "a.png"]
        plainNet fsEmpty).2.1.map (fun r => r.headers.lookup "Authorization") =
      [none] :=
  rfl

/-- Witness for C5 (amended): concrete credentials produce the expected
Authorization header. -/
theorem C5_witness :
    secretHeaders.lookup "Authorization" =
      some ("Basic " ++ b64encode (utf8Bytes ("key" ++ ":" ++ "secret"))) :=
  (C5_auth_headers "key" (some "secret") secretHeaders rfl).1

/-- A job-status body reporting failure. -/
def failBody : JValue := .obj [("job", .obj [("status", .str "failure")])]

/-- Scene environment whose submission succeeds with job id "job_1" and whose
job then resolves to "failure". -/
def envFail : SceneEnv :=
  { submitNet := fun _ => { status := 200
                            body := .obj [("job", .obj [("jobId", .str "job_1")])]
                            rawBody := [] }
    pollNet := fun _ _ => { status := 200, body := failBody, rawBody := [] }
    pollTimes := natTimes
    pollStart := 0
    pollFuel := 5
    assetNet := fun _ _ => { status := 200, body := .null, rawBody := [] }
    dlNet := fun _ _ => { status := 200, body := .null, rawBody := [] } }

/-- A concrete `main` configuration with credentials "k"/"s". -/
def cfgX : MainCfg :=
  { api_key := "k", api_secret := some "s", model_id := "flux.1-dev"
    width := 1024, height := 1024, guidance := 10, steps := 30, num_samples := 1
    poll_interval := 3, timeout := 300, out_root := ["outputs"] }

/-- Counterexample to C2 as stated: with two scenes and the first scene's job
resolving to "failure", the raised error does contain the job identifier and
the remote payload (the message literally embeds "job_1" and the dumped
body), yet the scene loop does not proceed to the second scene — the
`RuntimeError` propagates out of `main` and the run aborts with only the
first scene's events recorded (no event of scene 2 exists). -/
theorem C2_counterexample :
    mainLoop cfgX (fun _ => envFail) ["a", "b"] 1 fsEmpty =
      some (.error (.runtimeError (jobFailMsg "job_1" (.str "failure") failBody)),
        [.submitted 1 "job_1"], fsEmpty) ∧
    jobFailMsg "job_1" (.str "failure") failBody =
      "Job " ++ "job_1" ++ " ended with status: failure - " ++
        "\x7b\"job\": \x7b\"status\": \"failure\"\x7d\x7d" ∧
    [MainEvent.submitted 1 "job_1"].map MainEvent.scene = [1] :=
  ⟨rfl, rfl, rfl⟩

/-- Claim C2 (amended): when polling observes "failure" or "canceled", the
raised `RuntimeError` message embeds the job identifier and the dumped remote
payload; but `main` does not catch exceptions from `poll_job`: the scene loop
returns that error immediately, with only the current scene's submission
recorded, and the remaining scenes are never processed. -/
theorem C2_poll_failure_aborts (job_id api_key : String) (api_secret : Option String)
    (headers : List (String × String))
    (hauth : make_auth_headers api_key api_secret = .ok headers) :
    (∀ (poll_interval timeout : ℤ) (net : HttpRequest → Nat → HttpResponse)
       (times : Nat → ℤ) (start : ℤ) (fuel : Nat) (msg : String)
       (reqs : List HttpRequest),
       poll_job job_id api_key api_secret poll_interval timeout net times start fuel =
         some (.error (.runtimeError msg), reqs) →
       ∃ v, (v.isStr "failure" || v.isStr "canceled") = true ∧
         msg = "Job " ++ job_id ++ " ended with status: " ++ pyStr v ++ " - " ++
           dumps (net (pollRequest job_id headers) (reqs.length - 1)).body) ∧
    (∀ (cfg : MainCfg) (envs : Nat → SceneEnv) (scene : String) (rest : List String)
       (i : Nat) (fs : FsState) (resp : JValue) (tr : List HttpRequest) (v : JValue)
       (e : PyErr) (tr2 : List HttpRequest),
       submit_txt2img scene cfg.model_id cfg.api_key cfg.api_secret cfg.width cfg.height
         cfg.guidance cfg.steps cfg.num_samples (envs i).submitNet = (.ok resp, tr) →
       extract_job_id resp = .ok v → v.truthy = true →
       poll_job (pyStr v) cfg.api_key cfg.api_secret cfg.poll_interval cfg.timeout
         (envs i).pollNet (envs i).pollTimes (envs i).pollStart (envs i).pollFuel =
         some (.error e, tr2) →
       mainLoop cfg envs (scene :: rest) i fs =
         some (.error e, [.submitted i (pyStr v)], fs)) := by
  constructor
  · intro poll_interval timeout net times start fuel msg reqs hrun
    rw [poll_job, hauth] at hrun
    obtain ⟨k, -, hreqs, hdec, -⟩ :=
      pollLoop_spec job_id headers net times start timeout fuel 0
        (.error (.runtimeError msg)) reqs hrun
    rw [Nat.zero_add] at hdec
    have hlen1 : reqs.length - 1 = k := by rw [hreqs, List.length_replicate]; omega
    obtain ⟨v, -, hterm, hmsg⟩ :=
      pollDecision_runtime job_id headers net times start timeout k msg hdec
    rw [hlen1]
    exact ⟨v, hterm, hmsg⟩
  · intro cfg envs scene rest i fs resp tr v e tr2 hsub hjid htruthy hpoll
    simp only [mainLoop, hsub, hjid, htruthy, hpoll]
    rfl

/-- Witness for C2 (amended): the abort conclusion applied to a concrete
single-scene run whose job fails. -/
theorem C2_witness :
    mainLoop cfgX (fun _ => envFail) ["a"] 1 fsEmpty =
      some (.error (.runtimeError (jobFailMsg "job_1" (.str "failure") failBody)),
        [.submitted 1 "job_1"], fsEmpty) :=
  (C2_poll_failure_aborts "job_1" "k" (some "s") _ rfl).2 cfgX (fun _ => envFail)
    "a" [] 1 fsEmpty _ _ _ _ _ rfl rfl rfl rfl

/-- Writing the chunks of a list back in order (skipping empty chunks, as the
`if chunk:` guard does) reconstructs exactly the original list. -/
theorem chunksOf_fold (n : Nat) (hn : 0 < n) :
    ∀ (m : Nat) (l : List Nat), l.length ≤ m → ∀ acc : List Nat,
      (chunksOf n l).foldl (fun acc chunk => if chunk.isEmpty then acc else acc ++ chunk)
        acc = acc ++ l := by
  intro m
  induction m with
  | zero =>
    intro l hl acc
    have hnil : l = [] := List.length_eq_zero.mp (by omega)
    subst hnil
    rw [chunksOf]
    simp
  | succ m ih =>
    intro l hl acc
    rw [chunksOf]
    by_cases h : n = 0 ∨ l = []
    · rcases h with h | h
      · omega
      · subst h
        simp
    · rw [dif_neg h]
      push_neg at h
      have hne : l.take n ≠ [] := by
        intro hcon
        rcases List.take_eq_nil_iff.mp hcon with h0 | h0
        · exact h.1 h0
        · exact h.2 h0
      have htake : ((l.take n).isEmpty = true) = False := by
        simp [List.isEmpty_iff, hne]
      rw [List.foldl_cons]
      simp only [htake, if_false]
      have hdrop : (l.drop n).length ≤ m := by
        rw [List.length_drop]
        have := h.1
        omega
      rw [ih (l.drop n) hdrop (acc ++ l.take n), List.append_assoc,
        List.take_append_drop]

/-- The chunked write of `download_file` stores exactly the response bytes. -/
theorem chunksOf_join (l : List Nat) :
    (chunksOf 8192 l).foldl
      (fun acc chunk => if chunk.isEmpty then acc else acc ++ chunk) [] = l := by
  simpa using chunksOf_fold 8192 (by norm_num) l.length l le_rfl []

theorem readFile_cons_self (fl : List (List String × List Nat))
    (ds : List (List String)) (p : List String) (c : List Nat) :
    readFile { dirs := ds, files := (p, c) :: fl } p = some c := by
  unfold readFile
  rw [List.find?_cons_of_pos _ (by simp)]
  rfl

theorem readFile_cons_other (fl : List (List String × List Nat))
    (ds ds2 : List (List String)) (p q : List String) (c : List Nat) (h : q ≠ p) :
    readFile { dirs := ds, files := (p, c) :: fl } q =
      readFile { dirs := ds2, files := fl } q := by
  unfold readFile
  rw [List.find?_cons_of_neg _ (by simp; exact fun hc => h hc.symm)]

theorem mem_addDirTree (ds : List (List String)) (p : List String) (k : Nat)
    (hk : k < p.length) : p.take (k + 1) ∈ addDirTree ds p := by
  unfold addDirTree
  exact List.mem_append_left _ (List.mem_map.mpr ⟨k, List.mem_range.mpr hk, rfl⟩)

/-- Claim C7: on a successful remote read, `download_file` returns the
destination, writes exactly the response bytes there (chunked writes do not
corrupt or truncate), creates every parent directory of the destination, and
is idempotent: running it again with the same response and destination leaves
the destination holding those same bytes (overwrite, not append) and leaves
every other path unchanged. -/
theorem C7_download_idempotent (url : String) (dest : List String)
    (net : HttpRequest → HttpResponse) (fs : FsState)
    (hok : isHttpError (net (dlRequest url)).status = false) :
    (download_file url dest net fs).1 = .ok dest ∧
    readFile (download_file url dest net fs).2.2 dest =
      some (net (dlRequest url)).rawBody ∧
    (∀ k, k < dest.dropLast.length →
      dest.dropLast.take (k + 1) ∈ (download_file url dest net fs).2.2.dirs) ∧
    (download_file url dest net (download_file url dest net fs).2.2).1 = .ok dest ∧
    readFile (download_file url dest net (download_file url dest net fs).2.2).2.2 dest =
      some (net (dlRequest url)).rawBody ∧
    (∀ q, q ≠ dest →
      readFile (download_file url dest net (download_file url dest net fs).2.2).2.2 q =
        readFile (download_file url dest net fs).2.2 q) := by
  have hc := chunksOf_join (net (dlRequest url)).rawBody
  have heq : ∀ g : FsState, download_file url dest net g =
      (.ok dest, [dlRequest url],
        { dirs := addDirTree g.dirs dest.dropLast,
          files := (dest, (net (dlRequest url)).rawBody) :: g.files }) := by
    intro g
    simp [download_file, hok]
    simpa using hc
  refine ⟨?_, ?_, ?_, ?_, ?_, ?_⟩
  · rw [heq fs]
  · rw [heq fs]
    exact readFile_cons_self _ _ _ _
  · intro k hk
    rw [heq fs]
    exact mem_addDirTree _ _ k hk
  · rw [heq fs, heq _]
  · rw [heq fs, heq _]
    exact readFile_cons_self _ _ _ _
  · intro q hq
    rw [heq fs, heq _]
    rw [readFile_cons_other _ _ (addDirTree fs.dirs dest.dropLast) _ _ _ hq]

/-- Witness for C7: a concrete double download of a three-byte body. -/
theorem C7_witness :
    (download_file "https://cdn.example/img.png" ["outputs", "scene_001", "a.png"]
      plainNet fsEmpty).1 = .ok ["outputs", "scene_001", "a.png"] ∧
    readFile (download_file "https://cdn.example/img.png" ["outputs", "scene_001", "a.png"]
      plainNet (download_file "https://cdn.example/img.png"
        ["outputs", "scene_001", "a.png"] plainNet fsEmpty).2.2).2.2
      ["outputs", "scene_001", "a.png"] = some [1, 2, 3] := by
  have h := C7_download_idempotent "https://cdn.example/img.png"
    ["outputs", "scene_001", "a.png"] plainNet fsEmpty rfl
  exact ⟨h.1, h.2.2.2.2.1⟩

/-- One pass of the per-asset loop logs exactly one resolution attempt for its
asset id, whatever the outcome (fetch error, bad url, download error, or
success — `except Exception` swallows every failure). -/
theorem resolveAndDownload_attempts (cfg : MainCfg) (env : SceneEnv) (scene idx : Nat)
    (aid : JValue) (sceneDir : List String) (fs : FsState) :
    (resolveAndDownload cfg env scene idx aid sceneDir fs).1.filterMap attemptId =
      [pyStr aid] := by
  rcases hf : fetch_asset_url (pyStr aid) cfg.api_key cfg.api_secret (env.assetNet idx)
    with ⟨r, t⟩
  cases r with
  | error e => simp [resolveAndDownload, hf, attemptId]
  | ok urlVal =>
    cases urlVal with
    | str url =>
      rcases hd : download_file url
          (sceneDir ++ ["scene_" ++ pad3 scene ++ "_asset_" ++ toString idx ++ ".png"])
          (env.dlNet idx) fs with ⟨dr, dt, dfs⟩
      cases dr with
      | ok p => simp [resolveAndDownload, hf, hd, attemptId]
      | error e => simp [resolveAndDownload, hf, hd, attemptId]
    | null => simp [resolveAndDownload, hf, attemptId]
    | bool b => simp [resolveAndDownload, hf, attemptId]
    | num q => simp [resolveAndDownload, hf, attemptId]
    | arr items => simp [resolveAndDownload, hf, attemptId]
    | obj fields => simp [resolveAndDownload, hf, attemptId]

/-- The per-asset loop attempts resolution for exactly the ids in the list, in
order, regardless of per-asset failures. -/
theorem processAssets_attempts (cfg : MainCfg) (env : SceneEnv) (scene : Nat)
    (sceneDir : List String) :
    ∀ (aids : List JValue) (idx : Nat) (fs : FsState),
      (processAssets cfg env scene sceneDir aids idx fs).1.filterMap attemptId =
        aids.map pyStr := by
  intro aids
  induction aids with
  | nil => intro idx fs; simp [processAssets]
  | cons aid rest ih =>
    intro idx fs
    simp only [processAssets, List.filterMap_append, List.map_cons]
    rw [resolveAndDownload_attempts, ih]
    rfl

/-- Claim C8: after a successful poll, `main` reads `metadata.assetIds`
(defaulting to empty): with a falsy list it skips to the next scene with no
resolution attempts; with a non-empty list it attempts asset resolution for
exactly the ids present, in order, per-asset errors are swallowed, and the
remaining scenes are still processed afterwards. -/
theorem C8_assets_exact (cfg : MainCfg) (envs : Nat → SceneEnv) (scene : String)
    (rest : List String) (i : Nat) (fs : FsState) (resp : JValue)
    (tr : List HttpRequest) (v : JValue) (job_info : JValue) (tr2 : List HttpRequest)
    (m aidsVal : JValue)
    (hsub : submit_txt2img scene cfg.model_id cfg.api_key cfg.api_secret cfg.width
      cfg.height cfg.guidance cfg.steps cfg.num_samples (envs i).submitNet =
      (.ok resp, tr))
    (hjid : extract_job_id resp = .ok v) (htruthy : v.truthy = true)
    (hpoll : poll_job (pyStr v) cfg.api_key cfg.api_secret cfg.poll_interval cfg.timeout
      (envs i).pollNet (envs i).pollTimes (envs i).pollStart (envs i).pollFuel =
      some (.ok job_info, tr2))
    (hmeta : pyGetD job_info "metadata" (.obj []) = .ok m)
    (haids : pyGetD m "assetIds" (.arr []) = .ok aidsVal) :
    (aidsVal.truthy = false →
      mainLoop cfg envs (scene :: rest) i fs =
        (mainLoop cfg envs rest (i + 1) fs).map
          (fun out => (out.1,
            .submitted i (pyStr v) :: .noAssets i (pyStr v) :: out.2.1, out.2.2))) ∧
    (∀ aids, aidsVal = .arr aids → aidsVal.truthy = true →
      mainLoop cfg envs (scene :: rest) i fs =
        (mainLoop cfg envs rest (i + 1)
          (processAssets cfg (envs i) i (cfg.out_root ++ ["scene_" ++ pad3 i]) aids 1
            { fs with dirs := addDirTree fs.dirs (cfg.out_root ++ ["scene_" ++ pad3 i]) }).2).map
          (fun out => (out.1,
            .submitted i (pyStr v) ::
              (processAssets cfg (envs i) i (cfg.out_root ++ ["scene_" ++ pad3 i]) aids 1
                { fs with dirs := addDirTree fs.dirs (cfg.out_root ++ ["scene_" ++ pad3 i]) }).1 ++
              out.2.1, out.2.2)) ∧
      (processAssets cfg (envs i) i (cfg.out_root ++ ["scene_" ++ pad3 i]) aids 1
        { fs with dirs := addDirTree fs.dirs (cfg.out_root ++ ["scene_" ++ pad3 i]) }).1.filterMap
          attemptId = aids.map pyStr) := by
  have hassets : jobAssetIds job_info = .ok aidsVal := by
    simp only [jobAssetIds, hmeta]
    exact haids
  constructor
  · intro hfalsy
    simp only [mainLoop, hsub, hjid, htruthy, hpoll, hassets, hfalsy]
    cases mainLoop cfg envs rest (i + 1) fs with
    | none => rfl
    | some out => rfl
  · intro aids harr htr
    subst harr
    refine ⟨?_, processAssets_attempts cfg (envs i) i _ aids 1 _⟩
    simp only [mainLoop, hsub, hjid, htruthy, hpoll, hassets, htr, pyIter]
    cases mainLoop cfg envs rest (i + 1)
        (processAssets cfg (envs i) i (cfg.out_root ++ ["scene_" ++ pad3 i]) aids 1
          { fs with dirs := addDirTree fs.dirs (cfg.out_root ++ ["scene_" ++ pad3 i]) }).2 with
    | none => rfl
    | some out => rfl

/-- Job info of a succeeded job with two asset ids. -/
def jobInfoAssets : JValue :=
  .obj [("status", .str "success"),
        ("metadata", .obj [("assetIds", .arr [.str "a1", .str "a2"])])]

/-- Scene environment: submission and polling succeed with two assets; the
first asset's metadata fetch fails with 404, the second succeeds. -/
def envAssets : SceneEnv :=
  { submitNet := fun _ => { status := 200
                            body := .obj [("job", .obj [("jobId", .str "job_2")])]
                            rawBody := [] }
    pollNet := fun _ _ => { status := 200
                            body := .obj [("job", jobInfoAssets)]
                            rawBody := [] }
    pollTimes := natTimes
    pollStart := 0
    pollFuel := 3
    assetNet := fun idx _ =>
      if idx = 1 then { status := 404, body := .null, rawBody := [] }
      else { status := 200
             body := .obj [("asset", .obj [("url", .str "https://cdn.example/a2.png")])]
             rawBody := [] }
    dlNet := fun _ _ => { status := 200, body := .null, rawBody := [9, 9] } }

/-- Witness for C8: with two assets whose first resolution fails, both asset
ids are still attempted, in order. -/
theorem C8_witness :
    (processAssets cfgX envAssets 1 (cfgX.out_root ++ ["scene_" ++ pad3 1])
        [.str "a1", .str "a2"] 1
        { fsEmpty with
          dirs := addDirTree fsEmpty.dirs (cfgX.out_root ++ ["scene_" ++ pad3 1]) }).1.filterMap
      attemptId = ([JValue.str "a1", JValue.str "a2"]).map pyStr := by
  have h := C8_assets_exact cfgX (fun _ => envAssets) "a" [] 1 fsEmpty _ _ _ _ _ _ _
    rfl rfl rfl rfl rfl rfl
  exact (h.2 [.str "a1", .str "a2"] rfl rfl).2

/-- If the selected scenes value is not a list, it is truthy (falsy values are
never selected: `or` skips them in favour of the final `[]`). -/
theorem selectedScenes_truthy {fields : List (String × JValue)} {v : JValue}
    (hsel : selectedScenes (.obj fields) = .ok v) (hnarr : v.isArr = false) :
    v.truthy = true := by
  have hv : v = pyOr ((fields.lookup "scenes").getD .null)
      (pyOr ((fields.lookup "Scenes").getD .null) (.arr [])) := by
    simpa [selectedScenes, pyGet] using hsel.symm
  by_cases h1 : ((fields.lookup "scenes").getD .null).truthy = true
  · rw [pyOr, if_pos h1] at hv
    rw [hv]
    exact h1
  · rw [Bool.not_eq_true] at h1
    rw [pyOr, h1] at hv
    simp only [Bool.false_eq_true, if_false] at hv
    by_cases h2 : ((fields.lookup "Scenes").getD .null).truthy = true
    · rw [pyOr, if_pos h2] at hv
      rw [hv]
      exact h2
    · rw [Bool.not_eq_true] at h2
      rw [pyOr, h2] at hv
      simp only [Bool.false_eq_true, if_false] at hv
      rw [hv] at hnarr
      simp [JValue.isArr] at hnarr

/-- Claim C10: `load_scenes` returns the empty list without raising when
neither "scenes" nor "Scenes" is present; when "scenes" holds a falsy value
the "Scenes" value is selected instead (falling back to `[]`); and a
`ValueError` is raised exactly when the selected value is truthy and not a
list. -/
theorem C10_load_scenes :
    (∀ fields : List (String × JValue),
      fields.lookup "scenes" = none → fields.lookup "Scenes" = none →
      load_scenes (.obj fields) = .ok []) ∧
    (∀ (fields : List (String × JValue)) (v : JValue),
      fields.lookup "scenes" = some v → v.truthy = false →
      selectedScenes (.obj fields) =
        .ok (pyOr ((fields.lookup "Scenes").getD .null) (.arr []))) ∧
    (∀ (fields : List (String × JValue)) (v : JValue),
      selectedScenes (.obj fields) = .ok v →
      ((∃ e, load_scenes (.obj fields) = .error e) ↔
        (v.truthy = true ∧ v.isArr = false))) := by
  refine ⟨?_, ?_, ?_⟩
  · intro fields h1 h2
    simp [load_scenes, selectedScenes, pyGet, h1, h2, pyOr, JValue.truthy]
  · intro fields v h1 hfalsy
    simp [selectedScenes, pyGet, h1, pyOr, hfalsy]
  · intro fields v hsel
    cases hvarr : v.isArr with
    | true =>
      obtain ⟨items, rfl⟩ : ∃ items, v = .arr items := by
        cases v <;> simp [JValue.isArr] at hvarr <;> exact ⟨_, rfl⟩
      simp [load_scenes, hsel]
    | false =>
      have htr := selectedScenes_truthy hsel hvarr
      constructor
      · intro _
        exact ⟨htr, rfl⟩
      · intro _
        refine ⟨.valueError "JSON 'scenes' must be a list of strings.", ?_⟩
        rw [load_scenes, hsel]
        cases v <;> simp [JValue.isArr] at hvarr ⊢

/-- Witness for C10: concrete documents for the first two parts. -/
theorem C10_witness :
    load_scenes (.obj []) = .ok [] ∧
    selectedScenes (.obj [("scenes", .arr []), ("Scenes", .str "hello")]) =
      .ok (pyOr ((List.lookup "Scenes"
        [("scenes", JValue.arr []), ("Scenes", JValue.str "hello")]).getD .null)
        (.arr [])) := by
  obtain ⟨h1, h2, h3⟩ := C10_load_scenes
  exact ⟨h1 [] rfl rfl,
    h2 [("scenes", .arr []), ("Scenes", .str "hello")] (.arr []) rfl rfl⟩

/-- Scene environment whose submission succeeds with an empty response body
(no job object at all). -/
def envNoJob : SceneEnv :=
  { submitNet := emptyOkNet
    pollNet := fun _ _ => { status := 200, body := .null, rawBody := [] }
    pollTimes := natTimes
    pollStart := 0
    pollFuel := 1
    assetNet := fun _ _ => { status := 200, body := .null, rawBody := [] }
    dlNet := fun _ _ => { status := 200, body := .null, rawBody := [] } }

/-- Witness for C3 (amended): with an empty submission response body, `main`
skips the scene (`noJobId`) and continues with the remaining scenes. -/
theorem C3_witness :
    mainLoop cfgX (fun _ => envNoJob) ["a"] 1 fsEmpty =
      (mainLoop cfgX (fun _ => envNoJob) [] 2 fsEmpty).map
        (fun out => (out.1, .noJobId 1 :: out.2.1, out.2.2)) :=
  C3_submit_returns_body_or_raises.2 cfgX (fun _ => envNoJob) "a" [] 1 fsEmpty
    (.obj []) _ .null rfl rfl rfl
